import Mathlib

/-!
Verification of the azure-openai-benchmark load-testing harness.

This file gives a shallow embedding, in Lean 4, of the parts of the
repository relevant to the claims under scrutiny:

* `benchmark/statsaggregator.py` — the `_Samples` sliding window and the
  `_StatsAggregator` counters, aggregation and stop/dump logic;
* `benchmark/oairequester.py` — the `RequestStats` record, the anti-cache
  body mutation, the SSE stream parser `_handle_response`, the retry loop
  `_call`, the exponential-backoff wrapper, and `call`;
* `benchmark/loadcmd.py` — the `_RequestBuilder.__next__` body builder;
* `benchmark/messagegeneration.py` — `BaseMessagesGenerator.add_anticache_prefix`.

Wall-clock instants are modelled as rationals.  Calls to `time.time()` are
modelled by a clock oracle `tm : Nat → ℚ` together with an explicitly
threaded index: the n-th call to `time.time()` returns `tm n`.  Python
mutation of the per-request `stats` object is modelled by explicit state
passing; raised exceptions by `Except`.
-/

/-! ## `_Samples` (statsaggregator.py lines 19–38)

A sample window is a list of `(timestamp, value)` pairs.  `_append` pushes
at the back.  `_trim_oldest` pops from the front while the head is older
than `duration`; the wall clock is read once per loop iteration, which we
model with a single instant `now` (time is constant during one trim pass).
-/

abbrev Samples := List (ℚ × ℚ)

namespace Samples

/-- `_Samples._append`: push one `(timestamp, value)` pair at the back. -/
def append (s : Samples) (timestamp value : ℚ) : Samples :=
  List.append s [(timestamp, value)]

/-- `_Samples._trim_oldest`: pop leading entries whose age exceeds `duration`. -/
def trimOldest (now duration : ℚ) : Samples → Samples
  | [] => []
  | (t, v) :: rest =>
    if now - t > duration then trimOldest now duration rest
    else (t, v) :: rest

/-- `_Samples._len`. -/
def len (s : Samples) : Nat := List.length s

/-- `_Samples._values`. -/
def values (s : Samples) : List ℚ := s.map (fun e => e.2)

end Samples

/-! ## `RequestStats` (oairequester.py lines 25–42)

Per-call statistics record.  `last_exception` holds the formatted traceback
string; `output_content` the accumulated assistant deltas. -/

structure OutputItem where
  role : String
  content : String
  deriving Repr, DecidableEq

structure RequestStats where
  request_start_time : Option ℚ := none
  response_status_code : Nat := 0
  response_time : Option ℚ := none
  first_token_time : Option ℚ := none
  response_end_time : Option ℚ := none
  context_text_tokens : Nat := 0
  context_image_tokens : Nat := 0
  generated_tokens : Option Nat := none
  deployment_utilization : Option ℚ := none
  calls : Nat := 0
  last_exception : Option String := none
  output_content : List OutputItem := []
  deriving Repr, DecidableEq

/-- `RequestStats.__init__`: the freshly constructed record. -/
def RequestStats.init : RequestStats := {}

/-! ## `_StatsAggregator` (statsaggregator.py lines 40–276)

State of the aggregator thread.  All mutations happen under one lock, so the
sequential state-transformer model below is faithful to any interleaving of
`record_new_request` / `aggregate_request` / `stop` calls.  The periodic
`_dump` only logs; we track the number of snapshot lines it has emitted in
the ghost counter `emitted_snapshots` (one `logger.info` per `_dump` call,
either the json or the human-format branch). -/

structure StatsAggregator where
  network_latency_adjustment : ℚ
  window_duration : ℚ
  processing_requests_count : Int
  total_requests_count : Nat
  total_failed_count : Nat
  throttled_count : Nat
  request_timestamps : Samples
  request_latency : Samples
  call_tries : Samples
  response_latencies : Samples
  first_token_latencies : Samples
  token_latencies : Samples
  context_text_tokens : Samples
  context_image_tokens : Samples
  generated_tokens : Samples
  utilizations : Samples
  terminate : Bool
  emitted_snapshots : Nat
  raw_stat_dicts : List RequestStats
  deriving Repr, DecidableEq

namespace StatsAggregator

/-- A freshly constructed (and `run`-started) aggregator: all counters zero,
all windows empty, termination flag unset. -/
def init (network_latency_adjustment window_duration : ℚ) : StatsAggregator where
  network_latency_adjustment := network_latency_adjustment
  window_duration := window_duration
  processing_requests_count := 0
  total_requests_count := 0
  total_failed_count := 0
  throttled_count := 0
  request_timestamps := []
  request_latency := []
  call_tries := []
  response_latencies := []
  first_token_latencies := []
  token_latencies := []
  context_text_tokens := []
  context_image_tokens := []
  generated_tokens := []
  utilizations := []
  terminate := false
  emitted_snapshots := 0
  raw_stat_dicts := []

/-- `record_new_request` (lines 117–122). -/
def recordNewRequest (s : StatsAggregator) : StatsAggregator :=
  { s with processing_requests_count := s.processing_requests_count + 1 }

/-- `aggregate_request` (lines 124–183), flattened into one per-field update
(each field is assigned at most once along any control path of the Python
body, so the flattening is behaviour-preserving).  The two `_append` calls
at lines 153 and 167 pass `stats.request_start_time` itself as the
timestamp; when it is `None` the Python code appends a pair with a `None`
timestamp, which no later numeric claim touches — we model those two
appends only when the start time is present. -/
def aggregateRequest (s : StatsAggregator) (stats : RequestStats) : StatsAggregator :=
  let adj := s.network_latency_adjustment
  let is200 := stats.response_status_code = 200
  { s with
    -- line 131
    processing_requests_count := s.processing_requests_count - 1
    -- line 132
    total_requests_count := s.total_requests_count + 1
    -- lines 133–134
    call_tries :=
      match stats.request_start_time with
      | some t => s.call_tries.append t (stats.calls : ℚ)
      | none => s.call_tries
    -- lines 135–136
    total_failed_count :=
      if ¬ is200 then s.total_failed_count + 1 else s.total_failed_count
    -- lines 137–138
    throttled_count :=
      if ¬ is200 ∧ stats.response_status_code = 429 then
        s.throttled_count + 1
      else s.throttled_count
    -- lines 141–143
    request_latency :=
      if is200 then
        match stats.response_end_time, stats.request_start_time with
        | some e, some t => s.request_latency.append t (e - t - adj)
        | _, _ => s.request_latency
      else s.request_latency
    -- line 153
    request_timestamps :=
      if is200 then
        match stats.request_start_time with
        | some t => s.request_timestamps.append t t
        | none => s.request_timestamps
      else s.request_timestamps
    -- lines 156–157
    response_latencies :=
      if is200 then
        match stats.response_time, stats.request_start_time with
        | some r, some t => s.response_latencies.append t (r - t - adj)
        | _, _ => s.response_latencies
      else s.response_latencies
    -- lines 159–160
    first_token_latencies :=
      if is200 then
        match stats.first_token_time, stats.request_start_time with
        | some f, some t => s.first_token_latencies.append t (f - t - adj)
        | _, _ => s.first_token_latencies
      else s.first_token_latencies
    -- lines 162–170: the `generated_tokens == 0` guard skips the division
    token_latencies :=
      if is200 then
        if stats.generated_tokens = some 0 then s.token_latencies
        else
          match stats.generated_tokens, stats.response_end_time,
              stats.first_token_time, stats.request_start_time with
          | some g, some e, some f, some t =>
            s.token_latencies.append t ((e - f - adj) / (g : ℚ))
          | _, _, _, _ => s.token_latencies
      else s.token_latencies
    -- lines 172–173
    context_text_tokens :=
      if is200 then
        match stats.request_start_time with
        | some t => s.context_text_tokens.append t (stats.context_text_tokens : ℚ)
        | none => s.context_text_tokens
      else s.context_text_tokens
    -- line 174
    context_image_tokens :=
      if is200 then
        match stats.request_start_time with
        | some t => s.context_image_tokens.append t (stats.context_image_tokens : ℚ)
        | none => s.context_image_tokens
      else s.context_image_tokens
    -- lines 175–176
    generated_tokens :=
      if is200 then
        match stats.request_start_time, stats.generated_tokens with
        | some t, some g => s.generated_tokens.append t (g : ℚ)
        | _, _ => s.generated_tokens
      else s.generated_tokens
    -- lines 177–178
    utilizations :=
      match stats.deployment_utilization, stats.request_start_time with
      | some u, some t => s.utilizations.append t u
      | _, _ => s.utilizations
    -- line 183 (outside the try/except: always runs)
    raw_stat_dicts := s.raw_stat_dicts ++ [stats] }

/-- `_dump` (lines 185–264): computes the snapshot and emits exactly one
log line (json branch line 262, human branch line 264); no counter or
window is mutated. -/
def dump (s : StatsAggregator) : StatsAggregator :=
  { s with emitted_snapshots := s.emitted_snapshots + 1 }

/-- `stop` (lines 112–115): set the termination flag, then dump once more. -/
def stop (s : StatsAggregator) : StatsAggregator :=
  dump { s with terminate := true }

/-- `_slide_window` (lines 266–276). -/
def slideWindow (now : ℚ) (s : StatsAggregator) : StatsAggregator :=
  let d := s.window_duration
  { s with
    call_tries := Samples.trimOldest now d s.call_tries
    request_timestamps := Samples.trimOldest now d s.request_timestamps
    response_latencies := Samples.trimOldest now d s.response_latencies
    first_token_latencies := Samples.trimOldest now d s.first_token_latencies
    token_latencies := Samples.trimOldest now d s.token_latencies
    context_text_tokens := Samples.trimOldest now d s.context_text_tokens
    context_image_tokens := Samples.trimOldest now d s.context_image_tokens
    generated_tokens := Samples.trimOldest now d s.generated_tokens
    utilizations := Samples.trimOldest now d s.utilizations }

end StatsAggregator

/-- One caller-driven aggregator operation. -/
inductive AggOp where
  | newRequest
  | aggregate (stats : RequestStats)
  deriving Repr

/-- Apply one operation. -/
def AggOp.apply (s : StatsAggregator) : AggOp → StatsAggregator
  | .newRequest => s.recordNewRequest
  | .aggregate stats => s.aggregateRequest stats

/-- Apply a sequence of operations in order. -/
def AggOp.applyAll (s : StatsAggregator) (ops : List AggOp) : StatsAggregator :=
  ops.foldl AggOp.apply s

/-- Number of `aggregate` operations in a sequence. -/
def AggOp.countAggregated (ops : List AggOp) : Nat :=
  ops.countP fun op => match op with
    | .aggregate _ => true
    | .newRequest => false

/-- Number of aggregated records with a non-200 status. -/
def AggOp.countFailed (ops : List AggOp) : Nat :=
  ops.countP fun op => match op with
    | .aggregate stats => decide (stats.response_status_code ≠ 200)
    | .newRequest => false

/-- Number of aggregated records with status 200. -/
def AggOp.countSucceeded (ops : List AggOp) : Nat :=
  ops.countP fun op => match op with
    | .aggregate stats => decide (stats.response_status_code = 200)
    | .newRequest => false

/-- Number of aggregated records with status 429. -/
def AggOp.countThrottled (ops : List AggOp) : Nat :=
  ops.countP fun op => match op with
    | .aggregate stats => decide (stats.response_status_code = 429)
    | .newRequest => false

/-- A concrete 200-status record with zero generated tokens, as produced for
a stream that only carried role/`[DONE]` events. -/
def zeroTokenStats : RequestStats :=
  { response_status_code := 200
    request_start_time := some 1
    response_time := some 2
    first_token_time := some 3
    response_end_time := some 4
    generated_tokens := some 0
    calls := 1 }

/-! ## Chat message bodies

Message content in a request body is either a plain string or a list of
parts (multimodal).  A part is a dict — with optional `type` and `text`
keys — or a non-dict value (`isinstance(item, dict)` fails). -/

inductive ContentPart where
  | dictPart (typ : Option String) (text : Option String)
  | nonDict
  deriving Repr, DecidableEq

inductive MessageContent where
  | str (s : String)
  | parts (l : List ContentPart)
  deriving Repr, DecidableEq

structure Message where
  role : String
  content : Option MessageContent
  deriving Repr, DecidableEq

/-! ## Anti-cache body mutation (oairequester.py lines 136–154)

Executed unconditionally at the top of every `_call` invocation: the prefix
`ts=<timestamp> rand=<random>\n` is prepended to the content of every
message that has one, whatever the message's role. -/

/-- The prefix string built at line 139. -/
def anticachePrefix (ts rand : String) : String :=
  "ts=" ++ ts ++ " rand=" ++ rand ++ "\n"

/-- Line 149: `item['text'] = prefix + item.get('text', '')`. -/
def prefixPart (pfx : String) : ContentPart → ContentPart
  | .dictPart typ text => .dictPart typ (some (pfx ++ text.getD ""))
  | .nonDict => .nonDict

/-- Is this part a dict with `type == 'text'` (line 148)? -/
def isTextPart : ContentPart → Bool
  | .dictPart typ _ => typ = some "text"
  | .nonDict => false

/-- Lines 146–151: walk the parts, prepending to the first text part;
`none` when no text part was found (`prepended` stayed false). -/
def prependFirstText (pfx : String) : List ContentPart → Option (List ContentPart)
  | [] => none
  | p :: rest =>
    if isTextPart p then some (prefixPart pfx p :: rest)
    else (prependFirstText pfx rest).map (fun l => p :: l)

/-- Lines 141–154 for one message of the loop body. -/
def addPrefixToMessage (pfx : String) (m : Message) : Message :=
  match m.content with
  | some (.str s) => { m with content := some (.str (pfx ++ s)) }
  | some (.parts l) =>
    match prependFirstText pfx l with
    | some l' => { m with content := some (.parts l') }
    | none =>
      -- line 154: insert {'type': 'text', 'text': prefix.strip()} at the front
      { m with content := some (.parts (.dictPart (some "text") (some pfx.trim) :: l)) }
  | none => m

/-- Lines 140–154: the whole `for message in stats.input_messages` loop. -/
def addAnticacheToBody (pfx : String) (messages : List Message) : List Message :=
  messages.map (addPrefixToMessage pfx)

/-- The per-message mutation as described by the (amended) claim: prepend
the prefix to string content; for list content, prepend to the first
`type=text` element — here phrased as a split at that element — or insert a
new text element (with the prefix stripped of its trailing newline) at the
front when no text element exists. -/
def addPrefixMessageSpec (pfx : String) (m : Message) : Message :=
  match m.content with
  | some (.str s) => { m with content := some (.str (pfx ++ s)) }
  | some (.parts l) =>
    match l.dropWhile (fun p => !isTextPart p) with
    | p :: rest =>
      let l' := l.takeWhile (fun p => !isTextPart p) ++ prefixPart pfx p :: rest
      { m with content := some (.parts l') }
    | [] =>
      { m with content := some (.parts (.dictPart (some "text") (some pfx.trim) :: l)) }
  | none => m

/-! ## `_RequestBuilder.__next__` (loadcmd.py lines 56–74) -/

inductive BodyVal where
  | nat (n : Nat)
  | rat (q : ℚ)
  | str (s : String)
  | msgs (m : List Message)
  deriving Repr, DecidableEq

structure RequestBuilder where
  max_tokens : Option Nat
  completions : Option Nat
  frequency_penalty : Option ℚ
  presence_penalty : Option ℚ
  temperature : Option ℚ
  top_p : Option ℚ
  model : Option String
  deriving Repr, DecidableEq

/-- The body dict built by `__next__`, as an association list in insertion
order.  The presence-penalty key is spelled exactly as in the source
(line 66). -/
def RequestBuilder.next (b : RequestBuilder) (messages : List Message) :
    List (String × BodyVal) :=
  [("messages", BodyVal.msgs messages)]
    ++ (match b.max_tokens with | some v => [("max_tokens", BodyVal.nat v)] | none => [])
    ++ (match b.completions with | some v => [("n", BodyVal.nat v)] | none => [])
    ++ (match b.frequency_penalty with
        | some v => [("frequency_penalty", BodyVal.rat v)] | none => [])
    ++ (match b.presence_penalty with
        | some v => [("presenece_penalty", BodyVal.rat v)] | none => [])
    ++ (match b.temperature with | some v => [("temperature", BodyVal.rat v)] | none => [])
    ++ (match b.top_p with | some v => [("top_p", BodyVal.rat v)] | none => [])
    ++ (match b.model with | some v => [("model", BodyVal.str v)] | none => [])

/-- A builder configured with only a presence penalty of 1/2. -/
def presenceOnlyBuilder : RequestBuilder :=
  { max_tokens := none
    completions := none
    frequency_penalty := none
    presence_penalty := some (1/2)
    temperature := none
    top_p := none
    model := none }

/-! ## `BaseMessagesGenerator.add_anticache_prefix` (messagegeneration.py 39–52)

To make the "does not modify its input" claim expressible, Python's
reference semantics is made explicit: a heap is a list of message dicts
indexed by address, and a messages list is a list of addresses.
`copy.deepcopy` allocates fresh addresses holding copies.  (Aliasing among
duplicate addresses inside one list is not modelled; the claim does not
depend on it.) -/

structure ChatMsg where
  role : String
  content : String
  deriving Repr, DecidableEq, Inhabited

abbrev MsgHeap := List ChatMsg

/-- `add_anticache_prefix`: deep-copy the messages, prepend
`str(time.time()) + " "` to the first copy's content, and report 8 extra
text tokens.  `messages[0]` on an empty list raises `IndexError`, modelled
as `none`. -/
def add_anticache_prefix (heap : MsgHeap) (msgs : List Nat)
    (messages_tokens : Nat × Nat) (ts : String) :
    Option (MsgHeap × List Nat × (Nat × Nat)) :=
  -- line 47: messages = copy.deepcopy(messages)
  let heap1 := heap ++ msgs.map (fun a => heap.getD a default)
  let msgs1 := (List.range msgs.length).map (fun i => i + heap.length)
  match msgs1.head? with
  | none => none
  | some a0 =>
    -- line 48: messages[0]["content"] = str(time.time()) + " " + messages[0]["content"]
    let m := heap1.getD a0 default
    let heap2 := heap1.set a0 { m with content := ts ++ " " ++ m.content }
    -- lines 50–52
    some (heap2, msgs1, (messages_tokens.1 + 8, messages_tokens.2))

/-! ## The streaming requester (`oairequester.py`)

The wire is modelled as a list of `PostResult`s: the n-th `session.post`
either raises or yields an `HttpResponse`.  An SSE body line is classified
by exactly the observations lines 227–258 make of it. -/

inductive SSELine where
  /-- does not start with `b'data:'` (line 227) -/
  | nonData
  /-- decodes to exactly `"data: [DONE]\n"` (line 235) -/
  | done
  /-- starts with `data:` but JSON parsing fails (line 262) -/
  | malformed
  /-- parses, but without `choices[0].delta` (line 244) -/
  | unexpected
  /-- carries `choices[0].delta`, with its optional `role` and `content` -/
  | event (role : Option String) (content : Option String)
  deriving Repr, DecidableEq

inductive RetryAfter where
  /-- header present with a parseable float value (milliseconds) -/
  | val (ms : ℚ)
  /-- header present but `float()` raises `ValueError` (line 200) -/
  | malformed
  deriving Repr, DecidableEq

structure HttpResponse where
  status : Nat
  retryAfterMs : Option RetryAfter
  /-- utilization header: absent, or present with its parse result
  (`none` inside models empty/missing-`%`/unparseable values, lines 278–286) -/
  utilizationHeader : Option (Option ℚ)
  lines : List SSELine
  deriving Repr, DecidableEq

inductive PyExn where
  /-- an `aiohttp.ClientError` raised by `session.post`; `conn` marks the
  DNS/connection subclass of lines 70–73 -/
  | transport (conn : Bool) (desc : String)
  /-- `aiohttp.ClientResponseError` raised by `response.raise_for_status()` -/
  | httpStatus (status : Nat)
  /-- `NameError`: `response` unbound because the retry loop ran zero times -/
  | nameError
  /-- `KeyError` from a missing dict key -/
  | keyError (key : String)
  deriving Repr, DecidableEq

/-- Which exceptions the `@backoff.on_exception` decorator catches
(`aiohttp.ClientError` and its subclasses, line 122). -/
def PyExn.isClientError : PyExn → Bool
  | .transport _ _ => true
  | .httpStatus _ => true
  | .nameError => false
  | .keyError _ => false

/-- `_terminal_http_code` (lines 64–75): give up on any carried response
whose status is not 429, and on DNS/connection-class transport errors. -/
def terminalHttpCode : PyExn → Bool
  | .httpStatus s => decide (s ≠ 429)
  | .transport conn _ => conn
  | .nameError => false
  | .keyError _ => false

/-- The string stored by `traceback.format_exc()` (line 114). -/
def PyExn.describe : PyExn → String
  | .transport _ d => d
  | .httpStatus s => "aiohttp.ClientResponseError: " ++ toString s
  | .nameError => "NameError: name 'response' is not defined"
  | .keyError k => "KeyError: " ++ k

inductive PostResult where
  | raised (e : PyExn)
  | response (r : HttpResponse)
  deriving Repr, DecidableEq

/-- `_read_utilization` (lines 275–286): only a well-formed header value
updates the record. -/
def readUtilization (r : HttpResponse) (stats : RequestStats) : RequestStats :=
  match r.utilizationHeader with
  | some (some u) => { stats with deployment_utilization := some u }
  | _ => stats

/-- Append a string to the content of the last output element
(line 257: `stats.output_content[-1]["content"] += delta["content"]`). -/
def appendToLast (c : String) : List OutputItem → List OutputItem
  | [] => []
  | [last] => [{ last with content := last.content ++ c }]
  | x :: rest => x :: appendToLast c rest

/-- Lines 229–232: on a `data:` line, stamp `first_token_time` if unset
(consuming one `time.time()` call) and initialize `generated_tokens`. -/
def stampFirstToken (tm : Nat → ℚ) (stats : RequestStats) (k : Nat) :
    RequestStats × Nat :=
  let stats1 :=
    if stats.first_token_time = none then
      { stats with first_token_time := some (tm k) }
    else stats
  let k1 := if stats.first_token_time = none then k + 1 else k
  let stats2 :=
    if stats1.generated_tokens = none then
      { stats1 with generated_tokens := some 0 }
    else stats1
  (stats2, k1)

/-- Lines 244–258 for one parsed delta: handle `role` and `content`
independently; a present non-empty content is appended to the last output
element (created with role `"assistant"` if none exists) and counted. -/
def processDelta (role content : Option String) (stats : RequestStats) :
    RequestStats :=
  let stats :=
    match role with
    | some r => { stats with output_content := stats.output_content ++ [⟨r, ""⟩] }
    | none => stats
  match content with
  | some c =>
    if c ≠ "" then
      let stats :=
        if stats.output_content = [] then
          { stats with output_content := [⟨"assistant", ""⟩] }
        else stats
      { stats with
        output_content := appendToLast c stats.output_content
        generated_tokens := some (stats.generated_tokens.getD 0 + 1) }
    else stats
  | none => stats

/-- The `async for line in response.content` loop of `_handle_response`
(lines 223–267), over the classified lines, threading the stats record and
the clock index.  `time.time()` is consumed only when `first_token_time` is
stamped. -/
def streamLoop (tm : Nat → ℚ) : List SSELine → RequestStats → Nat → RequestStats × Nat
  | [], stats, k => (stats, k)
  | .nonData :: rest, stats, k => streamLoop tm rest stats k  -- lines 227–228
  | .done :: _, stats, k => stampFirstToken tm stats k        -- lines 235–237: break
  | .malformed :: rest, stats, k =>                           -- line 262: skipped
    streamLoop tm rest (stampFirstToken tm stats k).1 (stampFirstToken tm stats k).2
  | .unexpected :: rest, stats, k =>                          -- lines 259–261: skipped
    streamLoop tm rest (stampFirstToken tm stats k).1 (stampFirstToken tm stats k).2
  | .event role content :: rest, stats, k =>
    streamLoop tm rest
      (processDelta role content (stampFirstToken tm stats k).1)
      (stampFirstToken tm stats k).2

/-- `_handle_response` (lines 218–273). -/
def handleResponse (tm : Nat → ℚ) (lines : List SSELine)
    (stats : RequestStats) (k : Nat) : RequestStats × Nat :=
  -- line 220
  let p := streamLoop tm lines { stats with response_time := some (tm k) } (k + 1)
  -- line 273
  ({ p.1 with response_end_time := some (tm p.2) }, p.2 + 1)

/-- Line 181: the `while` condition
`stats.calls == 0 or time.time() - stats.request_start_time < 60`
(short-circuit: the clock is read only when `calls ≠ 0`); returns the
decision and the advanced clock index. -/
def whileProceed (tm : Nat → ℚ) (stats : RequestStats) (k : Nat) : Bool × Nat :=
  if stats.calls = 0 then (true, k)
  else (decide (tm k - stats.request_start_time.getD 0 < 60), k + 1)

/-- The `while` retry loop of `_call` (lines 181–206), consuming the wire.
An exhausted wire means the connection produces nothing further, modelled
as a transport error from `session.post`.  `MAX_RETRY_SECONDS = 60`. -/
def postLoop (tm : Nat → ℚ) (backoff : Bool) :
    List PostResult → RequestStats → Nat →
      Except (PyExn × RequestStats × Nat × List PostResult)
             (HttpResponse × RequestStats × Nat × List PostResult)
  | [], stats, k =>
    if (whileProceed tm stats k).1 then
      -- line 182, then a `session.post` on a dead wire
      .error (.transport false "ServerDisconnectedError",
        { stats with calls := stats.calls + 1 }, (whileProceed tm stats k).2, [])
    else
      -- the loop body never ran: line 208 reads the unbound `response`
      .error (.nameError, stats, (whileProceed tm stats k).2, [])
  | .raised e :: rest, stats, k =>
    if (whileProceed tm stats k).1 then
      -- line 182, then `session.post` raises
      .error (e, { stats with calls := stats.calls + 1 },
        (whileProceed tm stats k).2, rest)
    else
      .error (.nameError, stats, (whileProceed tm stats k).2, .raised e :: rest)
  | .response r :: rest, stats, k =>
    if (whileProceed tm stats k).1 then
      -- lines 182, 184, 191
      let k1 := (whileProceed tm stats k).2
      let stats1 := readUtilization r
        { stats with
          calls := stats.calls + 1
          response_status_code := r.status }
      if r.status ≠ 429 then .ok (r, stats1, k1, rest)   -- lines 192–193
      else if backoff then
        match r.retryAfterMs with
        | some (.val _) =>   -- lines 194–199: sleep, then loop again
          postLoop tm backoff rest stats1 k1
        | some .malformed => -- lines 200–203: ValueError, fall back to backoff
          .ok (r, stats1, k1, rest)
        | none =>            -- lines 204–206: no header, fall back to backoff
          .ok (r, stats1, k1, rest)
      else .ok (r, stats1, k1, rest)
    else
      .error (.nameError, stats, (whileProceed tm stats k).2, .response r :: rest)

structure CallState where
  stats : RequestStats
  wire : List PostResult
  k : Nat
  msgs : List Message
  deriving Repr, DecidableEq

/-- Lines 132–180 of `_call`: pre-increment `calls`, stamp
`request_start_time`, build the anti-cache prefix from the clock and the
random oracle (lines 137–139) and apply it to the (non-empty) message list,
recount context tokens with the external counter `tok`, and re-stamp
`request_start_time` (line 180).  Returns the updated stats, the clock
index, and the mutated message list. -/
def callPrepare (tm rand : Nat → ℚ) (tok : List Message → Nat × Nat)
    (st : CallState) : RequestStats × Nat × List Message :=
  -- lines 132–133
  let stats := { st.stats with
    calls := st.stats.calls + 1
    request_start_time := some (tm st.k) }
  -- lines 137–139
  let pfx := anticachePrefix (toString (tm (st.k + 1))) (toString (rand (st.k + 2)))
  -- lines 140–154: `if stats.input_messages:` (falsy when empty)
  let msgs := if st.msgs ≠ [] then addAnticacheToBody pfx st.msgs else st.msgs
  -- lines 157–162 (the token recount happens only for a non-empty list)
  let stats :=
    { stats with
      context_text_tokens :=
        if msgs ≠ [] then (tok msgs).1 else stats.context_text_tokens
      context_image_tokens :=
        if msgs ≠ [] then (tok msgs).2 else stats.context_image_tokens }
  -- line 180
  ({ stats with request_start_time := some (tm (st.k + 3)) }, st.k + 4, msgs)

/-- Lines 208–216 of `_call`: after the retry loop produced a response,
stamp `response_end_time` for non-200, raise for status when backoff is
enabled, and read the stream on 200. -/
def callFinish (tm : Nat → ℚ) (backoff : Bool) (msgs : List Message)
    (r : HttpResponse) (stats : RequestStats) (k : Nat)
    (wire : List PostResult) : Except (PyExn × CallState) CallState :=
  -- lines 208–209
  let stats :=
    if r.status ≠ 200 then { stats with response_end_time := some (tm k) }
    else stats
  let k := if r.status ≠ 200 then k + 1 else k
  -- lines 213–214: response.raise_for_status() when backoff is enabled
  if backoff ∧ 400 ≤ r.status then
    .error (.httpStatus r.status, ⟨stats, wire, k, msgs⟩)
  else if r.status = 200 then
    -- lines 215–216
    .ok ⟨(handleResponse tm r.lines stats k).1, wire,
         (handleResponse tm r.lines stats k).2, msgs⟩
  else
    .ok ⟨stats, wire, k, msgs⟩

/-- One invocation of `_call` (lines 126–216): prepare, run the retry
loop, then finish. -/
def callOnce (tm rand : Nat → ℚ) (tok : List Message → Nat × Nat) (backoff : Bool)
    (st : CallState) : Except (PyExn × CallState) CallState :=
  let p := callPrepare tm rand tok st
  match postLoop tm backoff st.wire p.1 p.2.1 with
  | .error (e, stats, k, wire) => .error (e, ⟨stats, wire, k, p.2.2⟩)
  | .ok (r, stats, k, wire) => callFinish tm backoff p.2.2 r stats k wire

/-- The `@backoff.on_exception(backoff.expo, aiohttp.ClientError, ...)`
decorator (lines 121–125): re-invoke `_call` while the raised exception is
a retryable `ClientError`; `fuel` abstracts the 60-second `max_time`
budget, after which the last exception is re-raised. -/
def backoffRetry (tm rand : Nat → ℚ) (tok : List Message → Nat × Nat)
    (backoff : Bool) : Nat → CallState → Except (PyExn × CallState) CallState
  | 0, st =>
    -- `max_time` budget exhausted: the last exception is re-raised
    match callOnce tm rand tok backoff st with
    | .ok st' => .ok st'
    | .error (e, st') => .error (e, st')
  | fuel + 1, st =>
    match callOnce tm rand tok backoff st with
    | .ok st' => .ok st'
    | .error (e, st') =>
      if e.isClientError ∧ ¬ terminalHttpCode e then
        backoffRetry tm rand tok backoff fuel st'
      else .error (e, st')

/-- A request body: a dict that may or may not carry a `messages` key. -/
structure RequestBody where
  messages : Option (List Message)
  deriving Repr, DecidableEq

/-- The `try`/`except` body of `call` (lines 107–119): run the retried
`_call` on a fresh stats record; when it raises, describe the exception
into `last_exception` and backfill `response_end_time` if unset.  This
always yields a record. -/
def callCaught (tm rand : Nat → ℚ) (tok : List Message → Nat × Nat)
    (backoff : Bool) (fuel : Nat) (msgs : List Message) (wire : List PostResult) :
    RequestStats :=
  match backoffRetry tm rand tok backoff fuel ⟨RequestStats.init, wire, 0, msgs⟩ with
  | .ok st => st.stats
  | .error (e, st) =>
    -- lines 113–117
    let stats := { st.stats with last_exception := some e.describe }
    if stats.response_end_time = none then
      { stats with response_end_time := some (tm st.k) }
    else stats

/-- `OAIRequester.call` (lines 94–119).  Line 108
(`stats.input_messages = body["messages"]`) runs **before** the `try`, so a
body without a `messages` key raises `KeyError` out of `call`; otherwise
the caught body always returns a record. -/
def OAIRequester.call (tm rand : Nat → ℚ) (tok : List Message → Nat × Nat)
    (backoff : Bool) (fuel : Nat) (body : RequestBody) (wire : List PostResult) :
    Except PyExn RequestStats :=
  match body.messages with
  | none => .error (.keyError "messages")
  | some msgs => .ok (callCaught tm rand tok backoff fuel msgs wire)

/-! ### Observables of an SSE line list (for the stream-parser claim)

These fold over the lines **up to the first `[DONE]`**, mirroring the
early `break`. -/

/-- Does the delta carry a present, non-empty (truthy) content field? -/
def hasContent : Option String → Bool
  | some c => c ≠ ""
  | none => false

/-- Number of content-bearing delta events before the first `[DONE]`. -/
def countContentEvents : List SSELine → Nat
  | [] => 0
  | .done :: _ => 0
  | .event _ c :: rest => (if hasContent c then 1 else 0) + countContentEvents rest
  | .nonData :: rest => countContentEvents rest
  | .malformed :: rest => countContentEvents rest
  | .unexpected :: rest => countContentEvents rest

/-- Is any `data:`-prefixed line read by the loop?  (`[DONE]` is itself a
`data:` line, and nothing past it is read, so this is plain existence.) -/
def hasDataLine : List SSELine → Bool
  | [] => false
  | .nonData :: rest => hasDataLine rest
  | _ :: _ => true

/-- Concatenation of all delta contents before the first `[DONE]`. -/
def contentConcat : List SSELine → String
  | [] => ""
  | .done :: _ => ""
  | .event _ (some c) :: rest => c ++ contentConcat rest
  | .event _ none :: rest => contentConcat rest
  | .nonData :: rest => contentConcat rest
  | .malformed :: rest => contentConcat rest
  | .unexpected :: rest => contentConcat rest

/-- All text accumulated in the output elements. -/
def outputText : List OutputItem → String
  | [] => ""
  | o :: rest => o.content ++ outputText rest

/-! ### Concrete fixtures for witnesses and counterexamples -/

/-- Identity clock: the n-th `time.time()` call returns `n` seconds. -/
def tmId : Nat → ℚ := fun n => (n : ℚ)

/-- Degenerate `random.random()` oracle. -/
def rndZero : Nat → ℚ := fun _ => 0

/-- Degenerate token counter. -/
def tokZero : List Message → Nat × Nat := fun _ => (0, 0)

/-- A 200 response whose stream ends immediately. -/
def ok200 : HttpResponse :=
  { status := 200, retryAfterMs := none, utilizationHeader := none
    lines := [.done] }

/-- A 429 response carrying `retry-after-ms: 200`. -/
def throttled429 : HttpResponse :=
  { status := 429, retryAfterMs := some (.val 200), utilizationHeader := none
    lines := [] }

/-- Run the retried `_call` on a wire and report `(stats.calls, POSTs made)`
for a successful outcome. -/
def callsAndPosts (backoff : Bool) (fuel : Nat) (wire : List PostResult) :
    Option (Nat × Nat) :=
  match backoffRetry tmId rndZero tokZero backoff fuel
      ⟨RequestStats.init, wire, 0, []⟩ with
  | .ok st => some (st.stats.calls, wire.length - st.wire.length)
  | .error _ => none

/-- A small SSE stream: a keep-alive line, a role delta with content, a
content-only delta, `[DONE]`, and an event past `[DONE]` that must be
ignored. -/
def demoLines : List SSELine :=
  [.nonData, .event (some "assistant") (some "Hi"), .event none (some "!"),
   .done, .event none (some "ignored")]

/-- The stats record carried by either outcome of the retry loop. -/
def resStats :
    Except (PyExn × RequestStats × Nat × List PostResult)
           (HttpResponse × RequestStats × Nat × List PostResult) → RequestStats
  | .ok (_, s, _, _) => s
  | .error (_, s, _, _) => s

/-- The call state carried by either outcome of `_call`. -/
def resCall : Except (PyExn × CallState) CallState → CallState
  | .ok st => st
  | .error (_, st) => st

/-! ## Theorems -/

/-- The trim loop is exactly "drop the longest prefix that is too old". -/
theorem Samples.trimOldest_eq_dropWhile (now duration : ℚ) (s : Samples) :
    Samples.trimOldest now duration s
      = s.dropWhile (fun e => decide (now - e.1 > duration)) := by
  induction s with
  | nil => rfl
  | cons hd tl ih =>
    obtain ⟨t, v⟩ := hd
    by_cases h : now - t > duration
    · simp [Samples.trimOldest, List.dropWhile, h, ih]
    · simp [Samples.trimOldest, List.dropWhile, h]

/-- Elements that are not too old survive a trim. -/
theorem Samples.mem_trimOldest_of_young (now duration : ℚ) (s : Samples)
    (e : ℚ × ℚ) (hmem : e ∈ s) (hyoung : ¬ now - e.1 > duration) :
    e ∈ Samples.trimOldest now duration s := by
  induction s with
  | nil => cases hmem
  | cons hd tl ih =>
    obtain ⟨t, v⟩ := hd
    by_cases h : now - t > duration
    · simp only [Samples.trimOldest, if_pos h]
      rcases List.mem_cons.mp hmem with heq | htl
      · subst heq; exact absurd h hyoung
      · exact ih htl
    · simpa [Samples.trimOldest, if_neg h] using hmem

/-! ### Counter lemmas for the aggregator -/

theorem aggregateRequest_total (s : StatsAggregator) (stats : RequestStats) :
    (s.aggregateRequest stats).total_requests_count = s.total_requests_count + 1 := rfl

theorem aggregateRequest_failed (s : StatsAggregator) (stats : RequestStats) :
    (s.aggregateRequest stats).total_failed_count
      = s.total_failed_count + (if stats.response_status_code ≠ 200 then 1 else 0) := by
  by_cases h : stats.response_status_code = 200 <;>
    simp [StatsAggregator.aggregateRequest, h]

theorem aggregateRequest_throttled (s : StatsAggregator) (stats : RequestStats) :
    (s.aggregateRequest stats).throttled_count
      = s.throttled_count + (if stats.response_status_code = 429 then 1 else 0) := by
  by_cases h429 : stats.response_status_code = 429
  · have h200 : ¬ stats.response_status_code = 200 := by omega
    simp [StatsAggregator.aggregateRequest, h429, h200]
  · by_cases h200 : stats.response_status_code = 200 <;>
      simp [StatsAggregator.aggregateRequest, h429, h200]

theorem aggregateRequest_raw (s : StatsAggregator) (stats : RequestStats) :
    (s.aggregateRequest stats).raw_stat_dicts.length
      = s.raw_stat_dicts.length + 1 := by
  simp [StatsAggregator.aggregateRequest]

theorem countAggregated_cons_new (tl : List AggOp) :
    AggOp.countAggregated (.newRequest :: tl) = AggOp.countAggregated tl := by
  simp [AggOp.countAggregated, List.countP_cons]

theorem countAggregated_cons_agg (stats : RequestStats) (tl : List AggOp) :
    AggOp.countAggregated (.aggregate stats :: tl) = AggOp.countAggregated tl + 1 := by
  simp [AggOp.countAggregated, List.countP_cons]

theorem countFailed_cons_new (tl : List AggOp) :
    AggOp.countFailed (.newRequest :: tl) = AggOp.countFailed tl := by
  simp [AggOp.countFailed, List.countP_cons]

theorem countFailed_cons_agg (stats : RequestStats) (tl : List AggOp) :
    AggOp.countFailed (.aggregate stats :: tl)
      = AggOp.countFailed tl + (if stats.response_status_code ≠ 200 then 1 else 0) := by
  by_cases h : stats.response_status_code = 200 <;>
    simp [AggOp.countFailed, List.countP_cons, h]

theorem countSucceeded_cons_new (tl : List AggOp) :
    AggOp.countSucceeded (.newRequest :: tl) = AggOp.countSucceeded tl := by
  simp [AggOp.countSucceeded, List.countP_cons]

theorem countSucceeded_cons_agg (stats : RequestStats) (tl : List AggOp) :
    AggOp.countSucceeded (.aggregate stats :: tl)
      = AggOp.countSucceeded tl + (if stats.response_status_code = 200 then 1 else 0) := by
  by_cases h : stats.response_status_code = 200 <;>
    simp [AggOp.countSucceeded, List.countP_cons, h]

theorem countThrottled_cons_new (tl : List AggOp) :
    AggOp.countThrottled (.newRequest :: tl) = AggOp.countThrottled tl := by
  simp [AggOp.countThrottled, List.countP_cons]

theorem countThrottled_cons_agg (stats : RequestStats) (tl : List AggOp) :
    AggOp.countThrottled (.aggregate stats :: tl)
      = AggOp.countThrottled tl + (if stats.response_status_code = 429 then 1 else 0) := by
  by_cases h : stats.response_status_code = 429 <;>
    simp [AggOp.countThrottled, List.countP_cons, h]

theorem applyAll_counts (ops : List AggOp) : ∀ s : StatsAggregator,
    (AggOp.applyAll s ops).total_requests_count
        = s.total_requests_count + AggOp.countAggregated ops ∧
    (AggOp.applyAll s ops).total_failed_count
        = s.total_failed_count + AggOp.countFailed ops ∧
    (AggOp.applyAll s ops).throttled_count
        = s.throttled_count + AggOp.countThrottled ops ∧
    (AggOp.applyAll s ops).raw_stat_dicts.length
        = s.raw_stat_dicts.length + AggOp.countAggregated ops := by
  induction ops with
  | nil => intro s; exact ⟨rfl, rfl, rfl, rfl⟩
  | cons op tl ih =>
    intro s
    obtain ⟨h1, h2, h3, h4⟩ := ih (AggOp.apply s op)
    have hstep : AggOp.applyAll s (op :: tl) = AggOp.applyAll (AggOp.apply s op) tl := rfl
    cases op with
    | newRequest =>
      have e1 : (AggOp.apply s .newRequest).total_requests_count
          = s.total_requests_count := rfl
      have e2 : (AggOp.apply s .newRequest).total_failed_count
          = s.total_failed_count := rfl
      have e3 : (AggOp.apply s .newRequest).throttled_count
          = s.throttled_count := rfl
      have e4 : (AggOp.apply s .newRequest).raw_stat_dicts.length
          = s.raw_stat_dicts.length := rfl
      rw [e1] at h1; rw [e2] at h2; rw [e3] at h3; rw [e4] at h4
      refine ⟨?_, ?_, ?_, ?_⟩
      · rw [hstep, h1, countAggregated_cons_new]
      · rw [hstep, h2, countFailed_cons_new]
      · rw [hstep, h3, countThrottled_cons_new]
      · rw [hstep, h4, countAggregated_cons_new]
    | aggregate stats =>
      have e1 : (AggOp.apply s (.aggregate stats)).total_requests_count
          = s.total_requests_count + 1 := aggregateRequest_total s stats
      have e2 : (AggOp.apply s (.aggregate stats)).total_failed_count
          = s.total_failed_count + (if stats.response_status_code ≠ 200 then 1 else 0) :=
        aggregateRequest_failed s stats
      have e3 : (AggOp.apply s (.aggregate stats)).throttled_count
          = s.throttled_count + (if stats.response_status_code = 429 then 1 else 0) :=
        aggregateRequest_throttled s stats
      have e4 : (AggOp.apply s (.aggregate stats)).raw_stat_dicts.length
          = s.raw_stat_dicts.length + 1 := aggregateRequest_raw s stats
      rw [e1] at h1; rw [e2] at h2; rw [e3] at h3; rw [e4] at h4
      refine ⟨?_, ?_, ?_, ?_⟩
      · rw [hstep, h1, countAggregated_cons_agg]; omega
      · rw [hstep, h2, countFailed_cons_agg]; omega
      · rw [hstep, h3, countThrottled_cons_agg]; omega
      · rw [hstep, h4, countAggregated_cons_agg]; omega

theorem count_failed_add_succeeded (ops : List AggOp) :
    AggOp.countFailed ops + AggOp.countSucceeded ops = AggOp.countAggregated ops := by
  induction ops with
  | nil => rfl
  | cons op tl ih =>
    cases op with
    | newRequest =>
      rw [countFailed_cons_new, countSucceeded_cons_new, countAggregated_cons_new, ih]
    | aggregate stats =>
      rw [countFailed_cons_agg, countSucceeded_cons_agg, countAggregated_cons_agg]
      by_cases h : stats.response_status_code = 200 <;> simp [h] <;> omega

theorem count_throttled_le_failed (ops : List AggOp) :
    AggOp.countThrottled ops ≤ AggOp.countFailed ops := by
  induction ops with
  | nil => exact Nat.le_refl 0
  | cons op tl ih =>
    cases op with
    | newRequest =>
      rw [countThrottled_cons_new, countFailed_cons_new]; exact ih
    | aggregate stats =>
      rw [countThrottled_cons_agg, countFailed_cons_agg]
      by_cases h429 : stats.response_status_code = 429
      · have h200 : stats.response_status_code ≠ 200 := by omega
        simp [h429, h200]; omega
      · by_cases h200 : stats.response_status_code = 200 <;> simp [h429, h200] <;> omega

/-- C5: starting from a fresh aggregator, after any sequence of
`record_new_request` / `aggregate_request` operations,
`throttled_count ≤ total_failed_count ≤ total_requests_count`, and
`total_requests_count` equals the number of aggregated records (also the
length of `raw_stat_dicts`), which is the failed count plus the
successful (status-200) count. -/
theorem claim_C5_aggregator_counter_invariants
    (adj wd : ℚ) (ops : List AggOp) :
    (AggOp.applyAll (StatsAggregator.init adj wd) ops).throttled_count
        ≤ (AggOp.applyAll (StatsAggregator.init adj wd) ops).total_failed_count ∧
    (AggOp.applyAll (StatsAggregator.init adj wd) ops).total_failed_count
        ≤ (AggOp.applyAll (StatsAggregator.init adj wd) ops).total_requests_count ∧
    (AggOp.applyAll (StatsAggregator.init adj wd) ops).total_requests_count
        = AggOp.countAggregated ops ∧
    (AggOp.applyAll (StatsAggregator.init adj wd) ops).total_requests_count
        = (AggOp.applyAll (StatsAggregator.init adj wd) ops).total_failed_count
            + AggOp.countSucceeded ops ∧
    (AggOp.applyAll (StatsAggregator.init adj wd) ops).raw_stat_dicts.length
        = (AggOp.applyAll (StatsAggregator.init adj wd) ops).total_requests_count := by
  obtain ⟨h1, h2, h3, h4⟩ := applyAll_counts ops (StatsAggregator.init adj wd)
  have hz1 : (StatsAggregator.init adj wd).total_requests_count = 0 := rfl
  have hz2 : (StatsAggregator.init adj wd).total_failed_count = 0 := rfl
  have hz3 : (StatsAggregator.init adj wd).throttled_count = 0 := rfl
  have hz4 : (StatsAggregator.init adj wd).raw_stat_dicts.length = 0 := rfl
  rw [hz1] at h1; rw [hz2] at h2; rw [hz3] at h3; rw [hz4] at h4
  have hfs := count_failed_add_succeeded ops
  have htf := count_throttled_le_failed ops
  refine ⟨by omega, by omega, by omega, by omega, by omega⟩

/-- C6: aggregating a 200 record with `generated_tokens == 0` appends no
per-token-latency (TBT) sample — the division is never reached — while the
context text-token, context image-token and generated-token samples are
still appended; with `generated_tokens > 0` and the needed timestamps
present, the appended TBT sample is
`(response_end_time - first_token_time - adj) / generated_tokens`. -/
theorem claim_C6_tbt_divide_by_zero_guard
    (s : StatsAggregator) (stats : RequestStats) (t : ℚ)
    (h200 : stats.response_status_code = 200)
    (hstart : stats.request_start_time = some t) :
    (stats.generated_tokens = some 0 →
      (s.aggregateRequest stats).token_latencies = s.token_latencies ∧
      (s.aggregateRequest stats).context_text_tokens
        = s.context_text_tokens.append t (stats.context_text_tokens : ℚ) ∧
      (s.aggregateRequest stats).context_image_tokens
        = s.context_image_tokens.append t (stats.context_image_tokens : ℚ) ∧
      (s.aggregateRequest stats).generated_tokens
        = s.generated_tokens.append t 0) ∧
    (∀ g e f, stats.generated_tokens = some g → 0 < g →
      stats.response_end_time = some e → stats.first_token_time = some f →
      (s.aggregateRequest stats).token_latencies
        = s.token_latencies.append t
            ((e - f - s.network_latency_adjustment) / (g : ℚ))) := by
  constructor
  · intro hgen
    refine ⟨?_, ?_, ?_, ?_⟩ <;>
      simp [StatsAggregator.aggregateRequest, h200, hstart, hgen]
  · intro g e f hgen hpos hend hfirst
    have hne : stats.generated_tokens ≠ some 0 := by
      rw [hgen]; intro hcontra
      exact absurd (Option.some.inj hcontra) (by omega)
    simp [StatsAggregator.aggregateRequest, h200, hstart, hgen, hend, hfirst, hne]
    intro h0
    exact absurd h0 (by omega)

/-- Witness for C6 at a concrete record: no TBT sample lands in a fresh
aggregator, while the generated-token window receives the zero sample. -/
theorem claim_C6_witness :
    ((StatsAggregator.init 0 60).aggregateRequest zeroTokenStats).token_latencies = []
      ∧ ((StatsAggregator.init 0 60).aggregateRequest zeroTokenStats).generated_tokens
          = [(1, 0)] :=
  ⟨(((claim_C6_tbt_divide_by_zero_guard (StatsAggregator.init 0 60) zeroTokenStats 1
      rfl rfl).1 rfl).1).trans rfl,
   ((((claim_C6_tbt_divide_by_zero_guard (StatsAggregator.init 0 60) zeroTokenStats 1
      rfl rfl).1 rfl).2.2.2)).trans rfl⟩

/-- C7 is refuted by the code: `stop` is not idempotent with respect to
emission.  Each `stop()` call runs `_dump()` unconditionally (line 115),
so two `stop()` calls on a fresh aggregator emit two additional snapshots,
not one. -/
theorem claim_C7_counterexample :
    ¬ ((StatsAggregator.init 0 60).stop.stop.emitted_snapshots
        = (StatsAggregator.init 0 60).emitted_snapshots + 1) := by
  decide

/-- C7 (amended): each `stop()` call sets the termination flag — setting the
flag is idempotent — and emits exactly one snapshot; two `stop()` calls
therefore emit exactly two additional snapshots. -/
theorem claim_C7_stop_emission (s : StatsAggregator) :
    s.stop.terminate = true ∧
    s.stop.stop.terminate = true ∧
    s.stop.emitted_snapshots = s.emitted_snapshots + 1 ∧
    s.stop.stop.emitted_snapshots = s.emitted_snapshots + 2 := by
  refine ⟨rfl, rfl, rfl, rfl⟩

/-- C8: trimming an empty sample window is a no-op; trim-older-than-`D`
removes exactly the longest leading prefix of entries older than the
window; and a sample appended with timestamp `t` survives a trim at time
`now` whenever `now - t ≤ D`. -/
theorem claim_C8_trim_window (now D t v : ℚ) (s : Samples) :
    Samples.trimOldest now D [] = [] ∧
    Samples.trimOldest now D s = s.dropWhile (fun e => decide (now - e.1 > D)) ∧
    (now - t ≤ D → (t, v) ∈ Samples.trimOldest now D (s.append t v)) := by
  refine ⟨rfl, Samples.trimOldest_eq_dropWhile now D s, fun h => ?_⟩
  apply Samples.mem_trimOldest_of_young
  · exact List.mem_append.mpr (Or.inr (List.mem_singleton.mpr rfl))
  · exact not_lt.mpr h

/-- Witness for C8: a sample stamped at time 5 survives a trim at time 60
with a 60-second window, behind an older entry that is dropped. -/
theorem claim_C8_witness :
    (60 : ℚ) - 5 ≤ 60 ∧
    ((5 : ℚ), (7 : ℚ)) ∈ Samples.trimOldest 60 60 (Samples.append [(-10, 1)] 5 7) :=
  ⟨by norm_num, (claim_C8_trim_window 60 60 5 7 [(-10, 1)]).2.2 (by norm_num)⟩

/-! ### C4, C9, C10 -/

theorem prependFirstText_eq_split (pfx : String) (l : List ContentPart) :
    prependFirstText pfx l =
      match l.dropWhile (fun p => !isTextPart p) with
      | [] => none
      | p :: rest =>
        some (l.takeWhile (fun p => !isTextPart p) ++ prefixPart pfx p :: rest) := by
  induction l with
  | nil => rfl
  | cons p rest ih =>
    by_cases h : isTextPart p = true
    · simp [prependFirstText, List.dropWhile_cons, List.takeWhile_cons, h]
    · have h' : isTextPart p = false := by
        cases hb : isTextPart p
        · rfl
        · exact absurd hb h
      rw [prependFirstText, if_neg (by simp [h']), ih]
      cases hdrop : rest.dropWhile (fun p => !isTextPart p) with
      | nil => simp [List.dropWhile_cons, List.takeWhile_cons, h', hdrop]
      | cons q qs => simp [List.dropWhile_cons, List.takeWhile_cons, h', hdrop]

theorem addPrefixToMessage_eq_spec (pfx : String) (m : Message) :
    addPrefixToMessage pfx m = addPrefixMessageSpec pfx m := by
  rcases m with ⟨role, content⟩
  cases content with
  | none => rfl
  | some c =>
    cases c with
    | str s => rfl
    | parts l =>
      rw [addPrefixToMessage, addPrefixMessageSpec]
      simp only
      rw [prependFirstText_eq_split]
      cases hdrop : l.dropWhile (fun p => !isTextPart p) with
      | nil => simp [hdrop]
      | cons q qs => simp [hdrop]

/-- C4 is refuted by the code: the anti-cache loop in `_call` prepends the
prefix to **every** message with content, not only to user messages — here
a `system` message is mutated. -/
theorem claim_C4_counterexample :
    addAnticacheToBody (anticachePrefix "100" "0.5")
        [{ role := "system", content := some (.str "hello") }]
      = [{ role := "system", content := some (.str "ts=100 rand=0.5\nhello") }]
    ∧ "system" ≠ "user" := by
  exact ⟨by decide, by decide⟩

/-- C4 (amended): before sending — and regardless of any anti-cache
setting, the mutation in `_call` is unconditional — the client prepends the
prefix `ts=<timestamp> rand=<random>\n` to the string content of every
message that has content, whatever its role; for list-typed content it
prepends to the first `type=text` element, or inserts a new text element
holding the stripped prefix at the front when no text element exists. -/
theorem claim_C4_anticache_prefix_every_message
    (ts rand : String) (messages : List Message) :
    addAnticacheToBody (anticachePrefix ts rand) messages
      = messages.map (addPrefixMessageSpec (anticachePrefix ts rand)) := by
  unfold addAnticacheToBody
  exact List.map_congr_left fun m _ =>
    addPrefixToMessage_eq_spec (anticachePrefix ts rand) m

/-- C9: the request builder forwards a configured presence penalty under
the misspelled key `presenece_penalty`; the standard key
`presence_penalty` is absent from the body.  This evaluates
`_RequestBuilder.__next__` at a builder configured with presence penalty
1/2. -/
theorem claim_C9_presence_penalty_key :
    (presenceOnlyBuilder.next []).lookup "presence_penalty" = none ∧
    (presenceOnlyBuilder.next []).lookup "presenece_penalty"
      = some (BodyVal.rat (1/2)) := by
  exact ⟨rfl, rfl⟩

/-- C10 is refuted on the empty list: `messages[0]` raises `IndexError`
(modelled by `none`), so nothing is returned. -/
theorem claim_C10_counterexample :
    add_anticache_prefix [{ role := "user", content := "hi" }] [] (3, 4) "1700.5"
      = none := rfl

/-- C10 (amended): for every **nonempty** messages list and token pair
`(text, image)`, `add_anticache_prefix` leaves the input list and every
message in it unmodified — it deep-copies before prepending the timestamp
prefix to the first message — and returns the token counts
`(text + 8, image)`. -/
theorem claim_C10_anticache_prefix_pure
    (heap : MsgHeap) (a0 : Nat) (rest : List Nat) (text image : Nat) (ts : String)
    (hvalid : ∀ a ∈ a0 :: rest, a < heap.length) :
    ∃ heap2 msgs1,
      add_anticache_prefix heap (a0 :: rest) (text, image) ts
          = some (heap2, msgs1, (text + 8, image))
      ∧ (∀ a ∈ a0 :: rest, heap2[a]? = heap[a]?)
      ∧ msgs1.length = (a0 :: rest).length := by
  have hhead : (((List.range (a0 :: rest).length).map
      (fun i => i + heap.length)).head?) = some heap.length := by
    simp [List.range_succ_eq_map]
  refine ⟨?_, ?_, ?_, ?_, ?_⟩
  · exact (heap ++ (a0 :: rest).map (fun a => heap.getD a default)).set heap.length
      { (heap ++ (a0 :: rest).map (fun a => heap.getD a default)).getD heap.length default
          with content := ts ++ " " ++
            ((heap ++ (a0 :: rest).map (fun a => heap.getD a default)).getD
              heap.length default).content }
  · exact (List.range (a0 :: rest).length).map (fun i => i + heap.length)
  · rw [ add_anticache_prefix]
    simp only [hhead]
  · intro a ha
    have hlt : a < heap.length := hvalid a ha
    rw [List.getElem?_set_ne (by omega)]
    exact List.getElem?_append_left hlt
  · simp

/-- Witness for C10 (amended): a concrete one-message heap. -/
theorem claim_C10_witness :
    ∃ heap2 msgs1,
      add_anticache_prefix [{ role := "user", content := "hi" }] [0] (3, 4) "1700.5"
          = some (heap2, msgs1, (3 + 8, 4))
      ∧ (∀ a ∈ [0], heap2[a]?
            = ([{ role := "user", content := "hi" }] : MsgHeap)[a]?)
      ∧ msgs1.length = [0].length :=
  claim_C10_anticache_prefix_pure [{ role := "user", content := "hi" }] 0 [] 3 4
    "1700.5" (by decide)

/-! ### Stream-parser lemmas -/

theorem outputText_append (l1 l2 : List OutputItem) :
    outputText (l1 ++ l2) = outputText l1 ++ outputText l2 := by
  induction l1 with
  | nil => simp [outputText]
  | cons o rest ih => simp [outputText, ih, String.append_assoc]

theorem outputText_appendToLast (c : String) (l : List OutputItem) (h : l ≠ []) :
    outputText (appendToLast c l) = outputText l ++ c := by
  induction l with
  | nil => exact absurd rfl h
  | cons o rest ih =>
    cases rest with
    | nil => simp [appendToLast, outputText, String.append_assoc]
    | cons o2 rest2 =>
      have : outputText (appendToLast c (o2 :: rest2))
          = outputText (o2 :: rest2) ++ c := ih (by simp)
      simp [appendToLast, outputText, this, String.append_assoc]

theorem stampFirstToken_gen (tm : Nat → ℚ) (stats : RequestStats) (k : Nat) :
    (stampFirstToken tm stats k).1.generated_tokens
      = some (stats.generated_tokens.getD 0) := by
  cases hg : stats.generated_tokens with
  | none => by_cases hft : stats.first_token_time = none <;>
      simp [stampFirstToken, hft, hg]
  | some g => by_cases hft : stats.first_token_time = none <;>
      simp [stampFirstToken, hft, hg]

theorem stampFirstToken_ft_none (tm : Nat → ℚ) (stats : RequestStats) (k : Nat)
    (h : stats.first_token_time = none) :
    (stampFirstToken tm stats k).1.first_token_time = some (tm k)
      ∧ (stampFirstToken tm stats k).2 = k + 1 := by
  cases hg : stats.generated_tokens with
  | none => simp [stampFirstToken, h, hg]
  | some g => simp [stampFirstToken, h, hg]

theorem stampFirstToken_ft_some (tm : Nat → ℚ) (stats : RequestStats) (k : Nat)
    (x : ℚ) (h : stats.first_token_time = some x) :
    (stampFirstToken tm stats k).1.first_token_time = some x
      ∧ (stampFirstToken tm stats k).2 = k := by
  cases hg : stats.generated_tokens with
  | none => simp [stampFirstToken, h, hg]
  | some g => simp [stampFirstToken, h, hg]

theorem stampFirstToken_output (tm : Nat → ℚ) (stats : RequestStats) (k : Nat) :
    (stampFirstToken tm stats k).1.output_content = stats.output_content := by
  by_cases hft : stats.first_token_time = none <;>
    cases hg : stats.generated_tokens <;> simp [stampFirstToken, hft, hg]

theorem stampFirstToken_lastexc (tm : Nat → ℚ) (stats : RequestStats) (k : Nat) :
    (stampFirstToken tm stats k).1.last_exception = stats.last_exception := by
  by_cases hft : stats.first_token_time = none <;>
    cases hg : stats.generated_tokens <;> simp [stampFirstToken, hft, hg]

theorem processDelta_gen (role content : Option String) (stats : RequestStats) :
    (processDelta role content stats).generated_tokens
      = if hasContent content then some (stats.generated_tokens.getD 0 + 1)
        else stats.generated_tokens := by
  cases content with
  | none => cases role <;> simp [processDelta, hasContent]
  | some c =>
    by_cases hc : c = ""
    · subst hc
      cases role <;> simp [processDelta, hasContent]
    · cases role with
      | none =>
        by_cases hout : stats.output_content = [] <;>
          simp [processDelta, hasContent, hc, hout]
      | some r =>
        simp [processDelta, hasContent, hc]

theorem processDelta_outputText (role content : Option String)
    (stats : RequestStats) :
    outputText (processDelta role content stats).output_content
      = outputText stats.output_content
          ++ (match content with | some c => c | none => "") := by
  cases content with
  | none =>
    cases role with
    | none => simp [processDelta]
    | some r => simp [processDelta, outputText_append, outputText]
  | some c =>
    by_cases hc : c = ""
    · subst hc
      cases role with
      | none => simp [processDelta]
      | some r => simp [processDelta, outputText_append, outputText]
    · cases role with
      | none =>
        by_cases hout : stats.output_content = []
        · simp [processDelta, hc, hout, outputText, appendToLast]
        · rw [processDelta]
          simp only [hout, if_neg, hc]
          simp [outputText_appendToLast c _ hout, hc, hout]
      | some r =>
        rw [processDelta]
        have hne : stats.output_content ++ [(⟨r, ""⟩ : OutputItem)] ≠ [] := by simp
        simp [hc, hne, outputText_appendToLast c _ hne,
          outputText_append, outputText, String.append_assoc]

theorem processDelta_ft (role content : Option String) (stats : RequestStats) :
    (processDelta role content stats).first_token_time = stats.first_token_time := by
  cases content with
  | none => cases role <;> simp [processDelta]
  | some c =>
    by_cases hc : c = ""
    · subst hc; cases role <;> simp [processDelta]
    · cases role with
      | none => by_cases hout : stats.output_content = [] <;>
          simp [processDelta, hc, hout]
      | some r => simp [processDelta, hc]

theorem processDelta_lastexc (role content : Option String) (stats : RequestStats) :
    (processDelta role content stats).last_exception = stats.last_exception := by
  cases content with
  | none => cases role <;> simp [processDelta]
  | some c =>
    by_cases hc : c = ""
    · subst hc; cases role <;> simp [processDelta]
    · cases role with
      | none => by_cases hout : stats.output_content = [] <;>
          simp [processDelta, hc, hout]
      | some r => simp [processDelta, hc]

theorem streamLoop_gen_some (tm : Nat → ℚ) (lines : List SSELine) :
    ∀ (stats : RequestStats) (k : Nat) (g : Nat),
      stats.generated_tokens = some g →
      (streamLoop tm lines stats k).1.generated_tokens
        = some (g + countContentEvents lines) := by
  induction lines with
  | nil => intro stats k g hg; simp [streamLoop, countContentEvents, hg]
  | cons line rest ih =>
    intro stats k g hg
    cases line with
    | nonData =>
      rw [streamLoop, countContentEvents]
      exact ih stats k g hg
    | done =>
      rw [streamLoop, countContentEvents, stampFirstToken_gen, hg]
      simp
    | malformed =>
      rw [streamLoop, countContentEvents]
      exact ih _ _ g (by rw [stampFirstToken_gen, hg]; rfl)
    | unexpected =>
      rw [streamLoop, countContentEvents]
      exact ih _ _ g (by rw [stampFirstToken_gen, hg]; rfl)
    | event role content =>
      rw [streamLoop, countContentEvents]
      have hstamp : (stampFirstToken tm stats k).1.generated_tokens = some g := by
        rw [stampFirstToken_gen, hg]; rfl
      cases hc : hasContent content with
      | false =>
        have hpd : (processDelta role content (stampFirstToken tm stats k).1).generated_tokens
            = some g := by rw [processDelta_gen, hc, hstamp]; simp
        rw [ih _ _ g hpd]
        simp
      | true =>
        have hpd : (processDelta role content (stampFirstToken tm stats k).1).generated_tokens
            = some (g + 1) := by rw [processDelta_gen, hc, hstamp]; simp
        rw [ih _ _ (g + 1) hpd]
        simp [Nat.add_assoc, Nat.add_comm 1 (countContentEvents rest), Nat.add_left_comm]

theorem streamLoop_gen_none (tm : Nat → ℚ) (lines : List SSELine) :
    ∀ (stats : RequestStats) (k : Nat),
      stats.generated_tokens = none →
      (streamLoop tm lines stats k).1.generated_tokens
        = if hasDataLine lines then some (countContentEvents lines) else none := by
  induction lines with
  | nil => intro stats k hg; simp [streamLoop, hasDataLine, hg]
  | cons line rest ih =>
    intro stats k hg
    cases line with
    | nonData =>
      rw [streamLoop]
      rw [ih stats k hg]
      rfl
    | done =>
      rw [streamLoop, stampFirstToken_gen, hg]
      simp [hasDataLine, countContentEvents]
    | malformed =>
      rw [streamLoop]
      have h0 : (stampFirstToken tm stats k).1.generated_tokens = some 0 := by
        rw [stampFirstToken_gen, hg]; rfl
      rw [streamLoop_gen_some tm rest _ _ 0 h0]
      simp [hasDataLine, countContentEvents]
    | unexpected =>
      rw [streamLoop]
      have h0 : (stampFirstToken tm stats k).1.generated_tokens = some 0 := by
        rw [stampFirstToken_gen, hg]; rfl
      rw [streamLoop_gen_some tm rest _ _ 0 h0]
      simp [hasDataLine, countContentEvents]
    | event role content =>
      rw [streamLoop]
      have h0 : (stampFirstToken tm stats k).1.generated_tokens = some 0 := by
        rw [stampFirstToken_gen, hg]; rfl
      cases hc : hasContent content with
      | false =>
        have hpd : (processDelta role content (stampFirstToken tm stats k).1).generated_tokens
            = some 0 := by rw [processDelta_gen, hc, h0]; simp
        rw [streamLoop_gen_some tm rest _ _ 0 hpd]
        simp [hasDataLine, countContentEvents, hc]
      | true =>
        have hpd : (processDelta role content (stampFirstToken tm stats k).1).generated_tokens
            = some 1 := by rw [processDelta_gen, hc, h0]; simp
        rw [streamLoop_gen_some tm rest _ _ 1 hpd]
        simp [hasDataLine, countContentEvents, hc, Nat.add_comm]

theorem streamLoop_ft_some (tm : Nat → ℚ) (lines : List SSELine) :
    ∀ (stats : RequestStats) (k : Nat) (x : ℚ),
      stats.first_token_time = some x →
      (streamLoop tm lines stats k).1.first_token_time = some x := by
  induction lines with
  | nil => intro stats k x hx; simpa [streamLoop] using hx
  | cons line rest ih =>
    intro stats k x hx
    cases line with
    | nonData => rw [streamLoop]; exact ih stats k x hx
    | done => rw [streamLoop]; exact (stampFirstToken_ft_some tm stats k x hx).1
    | malformed =>
      rw [streamLoop]
      exact ih _ _ x (stampFirstToken_ft_some tm stats k x hx).1
    | unexpected =>
      rw [streamLoop]
      exact ih _ _ x (stampFirstToken_ft_some tm stats k x hx).1
    | event role content =>
      rw [streamLoop]
      have : (processDelta role content (stampFirstToken tm stats k).1).first_token_time
          = some x := by
        rw [processDelta_ft, (stampFirstToken_ft_some tm stats k x hx).1]
      exact ih _ _ x this

theorem streamLoop_ft_none (tm : Nat → ℚ) (lines : List SSELine) :
    ∀ (stats : RequestStats) (k : Nat),
      stats.first_token_time = none →
      (streamLoop tm lines stats k).1.first_token_time
        = if hasDataLine lines then some (tm k) else none := by
  induction lines with
  | nil => intro stats k h; simpa [streamLoop, hasDataLine] using h
  | cons line rest ih =>
    intro stats k h
    cases line with
    | nonData =>
      rw [streamLoop, ih stats k h]
      rfl
    | done =>
      rw [streamLoop]
      rw [(stampFirstToken_ft_none tm stats k h).1]
      simp [hasDataLine]
    | malformed =>
      rw [streamLoop]
      rw [streamLoop_ft_some tm rest _ _ (tm k) (stampFirstToken_ft_none tm stats k h).1]
      simp [hasDataLine]
    | unexpected =>
      rw [streamLoop]
      rw [streamLoop_ft_some tm rest _ _ (tm k) (stampFirstToken_ft_none tm stats k h).1]
      simp [hasDataLine]
    | event role content =>
      rw [streamLoop]
      have hft : (processDelta role content (stampFirstToken tm stats k).1).first_token_time
          = some (tm k) := by
        rw [processDelta_ft, (stampFirstToken_ft_none tm stats k h).1]
      rw [streamLoop_ft_some tm rest _ _ (tm k) hft]
      simp [hasDataLine]

theorem streamLoop_outputText (tm : Nat → ℚ) (lines : List SSELine) :
    ∀ (stats : RequestStats) (k : Nat),
      outputText (streamLoop tm lines stats k).1.output_content
        = outputText stats.output_content ++ contentConcat lines := by
  induction lines with
  | nil => intro stats k; simp [streamLoop, contentConcat]
  | cons line rest ih =>
    intro stats k
    cases line with
    | nonData => rw [streamLoop, contentConcat]; exact ih stats k
    | done =>
      rw [streamLoop, contentConcat, stampFirstToken_output]
      simp
    | malformed =>
      rw [streamLoop, contentConcat, ih, stampFirstToken_output]
    | unexpected =>
      rw [streamLoop, contentConcat, ih, stampFirstToken_output]
    | event role content =>
      rw [streamLoop, ih, processDelta_outputText, stampFirstToken_output]
      cases content with
      | none => simp [contentConcat]
      | some c => simp [contentConcat, String.append_assoc]

theorem streamLoop_lastexc (tm : Nat → ℚ) (lines : List SSELine) :
    ∀ (stats : RequestStats) (k : Nat),
      (streamLoop tm lines stats k).1.last_exception = stats.last_exception := by
  induction lines with
  | nil => intro stats k; rfl
  | cons line rest ih =>
    intro stats k
    cases line with
    | nonData => rw [streamLoop]; exact ih stats k
    | done => rw [streamLoop]; exact stampFirstToken_lastexc tm stats k
    | malformed => rw [streamLoop, ih, stampFirstToken_lastexc]
    | unexpected => rw [streamLoop, ih, stampFirstToken_lastexc]
    | event role content =>
      rw [streamLoop, ih, processDelta_lastexc, stampFirstToken_lastexc]

/-- C3: for a 200 streamed response, the parser stamps `first_token_time`
at the first `data:` line (`tm (k+1)`: the clock call right after the one
for `response_time`), initializes `generated_tokens` to 0, increments it
exactly once per delta event with a present non-empty content field
(appending that content to the last output element, creating one with role
`"assistant"` when none exists), and stops at `data: [DONE]` — so the final
`generated_tokens` is the number of content-bearing events before `[DONE]`,
and the accumulated output text is their concatenation.  When no `data:`
line arrives, both fields stay unset. -/
theorem claim_C3_stream_reader (tm : Nat → ℚ) (lines : List SSELine)
    (stats : RequestStats) (k : Nat)
    (hft : stats.first_token_time = none)
    (hgen : stats.generated_tokens = none)
    (hout : stats.output_content = []) :
    (handleResponse tm lines stats k).1.first_token_time
        = (if hasDataLine lines then some (tm (k + 1)) else none) ∧
    (handleResponse tm lines stats k).1.generated_tokens
        = (if hasDataLine lines then some (countContentEvents lines) else none) ∧
    outputText (handleResponse tm lines stats k).1.output_content
        = contentConcat lines ∧
    (handleResponse tm lines stats k).1.response_end_time.isSome := by
  have hft' : ({ stats with response_time := some (tm k) }
      : RequestStats).first_token_time = none := hft
  have hgen' : ({ stats with response_time := some (tm k) }
      : RequestStats).generated_tokens = none := hgen
  have hout' : ({ stats with response_time := some (tm k) }
      : RequestStats).output_content = [] := hout
  refine ⟨?_, ?_, ?_, ?_⟩
  · show ({ (streamLoop tm lines _ (k+1)).1 with
        response_end_time := some (tm (streamLoop tm lines _ (k+1)).2)
      } : RequestStats).first_token_time = _
    simpa using streamLoop_ft_none tm lines _ (k + 1) hft'
  · show ({ (streamLoop tm lines _ (k+1)).1 with
        response_end_time := some (tm (streamLoop tm lines _ (k+1)).2)
      } : RequestStats).generated_tokens = _
    simpa using streamLoop_gen_none tm lines _ (k + 1) hgen'
  · have h := streamLoop_outputText tm lines
      { stats with response_time := some (tm k) } (k + 1)
    have hx : outputText ({ stats with response_time := some (tm k) }
        : RequestStats).output_content = "" := by
      show outputText stats.output_content = ""
      rw [hout]
      rfl
    rw [hx, String.empty_append] at h
    exact h
  · rfl

/-- Witness for C3 on `demoLines`: first token stamped at clock index 1,
two content events counted, output text `"Hi!"`, the post-`[DONE]` event
ignored. -/
theorem claim_C3_witness :
    (handleResponse tmId demoLines RequestStats.init 0).1.first_token_time = some 1 ∧
    (handleResponse tmId demoLines RequestStats.init 0).1.generated_tokens = some 2 ∧
    outputText (handleResponse tmId demoLines RequestStats.init 0).1.output_content
      = "Hi!" := by
  obtain ⟨h1, h2, h3, _⟩ :=
    claim_C3_stream_reader tmId demoLines RequestStats.init 0 rfl rfl rfl
  exact ⟨h1.trans (by decide), h2.trans (by decide), h3.trans (by decide)⟩

theorem readUtilization_lastexc (r : HttpResponse) (stats : RequestStats) :
    (readUtilization r stats).last_exception = stats.last_exception := by
  rcases r with ⟨status, ra, util, lines⟩
  cases util with
  | none => rfl
  | some u => cases u <;> rfl

theorem readUtilization_calls (r : HttpResponse) (stats : RequestStats) :
    (readUtilization r stats).calls = stats.calls := by
  rcases r with ⟨status, ra, util, lines⟩
  cases util with
  | none => rfl
  | some u => cases u <;> rfl

theorem postLoop_lastexc (tm : Nat → ℚ) (b : Bool) (wire : List PostResult) :
    ∀ (stats : RequestStats) (k : Nat),
      (resStats (postLoop tm b wire stats k)).last_exception
        = stats.last_exception := by
  induction wire with
  | nil =>
    intro stats k
    rw [postLoop]
    by_cases hw : (whileProceed tm stats k).1 = true <;> simp [hw, resStats]
  | cons pr rest ih =>
    intro stats k
    cases pr with
    | raised e =>
      rw [postLoop]
      by_cases hw : (whileProceed tm stats k).1 = true <;> simp [hw, resStats]
    | response r =>
      rw [postLoop]
      by_cases hw : (whileProceed tm stats k).1 = true
      · simp only [hw, if_true, ite_true]
        by_cases h429 : r.status ≠ 429
        · simp [h429, resStats, readUtilization_lastexc]
        · cases b with
          | false => simp [h429, resStats, readUtilization_lastexc]
          | true =>
            cases hra : r.retryAfterMs with
            | none => simp [h429, hra, resStats, readUtilization_lastexc]
            | some ra =>
              cases ra with
              | malformed => simp [h429, hra, resStats, readUtilization_lastexc]
              | val ms =>
                simp only [h429, hra, ite_false, if_false, ite_true, if_true]
                exact (ih _ _).trans (readUtilization_lastexc _ _)
      · simp [hw, resStats]

theorem stampFirstToken_calls (tm : Nat → ℚ) (stats : RequestStats) (k : Nat) :
    (stampFirstToken tm stats k).1.calls = stats.calls := by
  by_cases hft : stats.first_token_time = none <;>
    cases hg : stats.generated_tokens <;> simp [stampFirstToken, hft, hg]

theorem processDelta_calls (role content : Option String) (stats : RequestStats) :
    (processDelta role content stats).calls = stats.calls := by
  cases content with
  | none => cases role <;> simp [processDelta]
  | some c =>
    by_cases hc : c = ""
    · subst hc; cases role <;> simp [processDelta]
    · cases role with
      | none => by_cases hout : stats.output_content = [] <;>
          simp [processDelta, hc, hout]
      | some r => simp [processDelta, hc]

theorem streamLoop_calls (tm : Nat → ℚ) (lines : List SSELine) :
    ∀ (stats : RequestStats) (k : Nat),
      (streamLoop tm lines stats k).1.calls = stats.calls := by
  induction lines with
  | nil => intro stats k; rfl
  | cons line rest ih =>
    intro stats k
    cases line with
    | nonData => rw [streamLoop]; exact ih stats k
    | done => rw [streamLoop]; exact stampFirstToken_calls tm stats k
    | malformed => rw [streamLoop, ih, stampFirstToken_calls]
    | unexpected => rw [streamLoop, ih, stampFirstToken_calls]
    | event role content =>
      rw [streamLoop, ih, processDelta_calls, stampFirstToken_calls]

theorem handleResponse_end (tm : Nat → ℚ) (lines : List SSELine)
    (stats : RequestStats) (k : Nat) :
    (handleResponse tm lines stats k).1.response_end_time.isSome := rfl

theorem handleResponse_lastexc (tm : Nat → ℚ) (lines : List SSELine)
    (stats : RequestStats) (k : Nat) :
    (handleResponse tm lines stats k).1.last_exception = stats.last_exception := by
  show (streamLoop tm lines { stats with response_time := some (tm k) }
    (k + 1)).1.last_exception = stats.last_exception
  rw [streamLoop_lastexc]

theorem handleResponse_calls (tm : Nat → ℚ) (lines : List SSELine)
    (stats : RequestStats) (k : Nat) :
    (handleResponse tm lines stats k).1.calls = stats.calls := by
  show (streamLoop tm lines { stats with response_time := some (tm k) }
    (k + 1)).1.calls = stats.calls
  rw [streamLoop_calls]

theorem callPrepare_lastexc (tm rand : Nat → ℚ) (tok : List Message → Nat × Nat)
    (st : CallState) :
    (callPrepare tm rand tok st).1.last_exception = st.stats.last_exception := rfl

theorem callPrepare_calls (tm rand : Nat → ℚ) (tok : List Message → Nat × Nat)
    (st : CallState) :
    (callPrepare tm rand tok st).1.calls = st.stats.calls + 1 := rfl

theorem callFinish_lastexc (tm : Nat → ℚ) (b : Bool) (msgs : List Message)
    (r : HttpResponse) (stats : RequestStats) (k : Nat) (wire : List PostResult) :
    (resCall (callFinish tm b msgs r stats k wire)).stats.last_exception
      = stats.last_exception := by
  rw [callFinish]
  by_cases h200 : r.status = 200
  · have hne : ¬ r.status ≠ 200 := by simp [h200]
    by_cases hb : b = true ∧ 400 ≤ r.status
    · simp [hne, hb, resCall]
    · simp [hne, hb, h200, resCall, handleResponse_lastexc]
  · by_cases hb : b = true ∧ 400 ≤ r.status
    · simp [h200, hb, resCall]
    · simp [h200, hb, resCall]

theorem callFinish_ok_end (tm : Nat → ℚ) (b : Bool) (msgs : List Message)
    (r : HttpResponse) (stats : RequestStats) (k : Nat) (wire : List PostResult)
    (st' : CallState) (h : callFinish tm b msgs r stats k wire = .ok st') :
    st'.stats.response_end_time.isSome := by
  rw [callFinish] at h
  by_cases h200 : r.status = 200
  · have hb' : ¬ (b = true ∧ 400 ≤ 200) := by
      rintro ⟨_, h400⟩
      omega
    simp only [h200, ne_eq, not_true_eq_false, if_false, ite_false, hb',
      ite_true, if_true] at h
    rw [← Except.ok.inj h]
    exact handleResponse_end tm r.lines stats k
  · by_cases hb : b = true ∧ 400 ≤ r.status
    · simp [h200, hb] at h
    · simp only [h200, ne_eq, not_false_eq_true, if_true, ite_true, hb,
        if_false, ite_false] at h
      rw [← Except.ok.inj h]
      simp

theorem callOnce_lastexc (tm rand : Nat → ℚ) (tok : List Message → Nat × Nat)
    (b : Bool) (st : CallState) :
    (resCall (callOnce tm rand tok b st)).stats.last_exception
      = st.stats.last_exception := by
  rw [callOnce]
  have hpl := postLoop_lastexc tm b st.wire (callPrepare tm rand tok st).1
    (callPrepare tm rand tok st).2.1
  cases hpost : postLoop tm b st.wire (callPrepare tm rand tok st).1
      (callPrepare tm rand tok st).2.1 with
  | error q =>
    obtain ⟨e, s, k2, w⟩ := q
    rw [hpost] at hpl
    simp only [resStats] at hpl
    simp only [resCall]
    exact hpl.trans (callPrepare_lastexc tm rand tok st)
  | ok q =>
    obtain ⟨r, s, k2, w⟩ := q
    rw [hpost] at hpl
    simp only [resStats] at hpl
    rw [callFinish_lastexc]
    exact hpl.trans (callPrepare_lastexc tm rand tok st)

theorem callOnce_ok_end (tm rand : Nat → ℚ) (tok : List Message → Nat × Nat)
    (b : Bool) (st st' : CallState)
    (h : callOnce tm rand tok b st = .ok st') :
    st'.stats.response_end_time.isSome := by
  rw [callOnce] at h
  cases hpost : postLoop tm b st.wire (callPrepare tm rand tok st).1
      (callPrepare tm rand tok st).2.1 with
  | error q =>
    obtain ⟨e, s, k2, w⟩ := q
    rw [hpost] at h
    simp at h
  | ok q =>
    obtain ⟨r, s, k2, w⟩ := q
    rw [hpost] at h
    exact callFinish_ok_end tm b _ r s k2 w st' h

theorem backoffRetry_lastexc (tm rand : Nat → ℚ) (tok : List Message → Nat × Nat)
    (b : Bool) : ∀ (fuel : Nat) (st : CallState),
    (resCall (backoffRetry tm rand tok b fuel st)).stats.last_exception
      = st.stats.last_exception := by
  intro fuel
  induction fuel with
  | zero =>
    intro st
    rw [backoffRetry]
    have hco := callOnce_lastexc tm rand tok b st
    cases h : callOnce tm rand tok b st with
    | ok st' =>
      rw [h] at hco
      simpa [resCall] using hco
    | error q =>
      obtain ⟨e, st'⟩ := q
      rw [h] at hco
      simpa [resCall] using hco
  | succ fuel ih =>
    intro st
    rw [backoffRetry]
    have hco := callOnce_lastexc tm rand tok b st
    cases h : callOnce tm rand tok b st with
    | ok st' =>
      rw [h] at hco
      simpa [resCall] using hco
    | error q =>
      obtain ⟨e, st'⟩ := q
      rw [h] at hco
      simp only [resCall] at hco
      by_cases hr : e.isClientError = true ∧ terminalHttpCode e = false
      · simp only [hr, if_true, ite_true]
        exact (ih st').trans hco
      · simpa [hr, resCall] using hco

theorem backoffRetry_ok_end (tm rand : Nat → ℚ) (tok : List Message → Nat × Nat)
    (b : Bool) : ∀ (fuel : Nat) (st st' : CallState),
    backoffRetry tm rand tok b fuel st = .ok st' →
    st'.stats.response_end_time.isSome := by
  intro fuel
  induction fuel with
  | zero =>
    intro st st' h
    rw [backoffRetry] at h
    cases hco : callOnce tm rand tok b st with
    | ok st'' =>
      rw [hco] at h
      rw [← Except.ok.inj h]
      exact callOnce_ok_end tm rand tok b st st'' hco
    | error q =>
      obtain ⟨e, st''⟩ := q
      rw [hco] at h
      simp at h
  | succ fuel ih =>
    intro st st' h
    rw [backoffRetry] at h
    cases hco : callOnce tm rand tok b st with
    | ok st'' =>
      rw [hco] at h
      rw [← Except.ok.inj h]
      exact callOnce_ok_end tm rand tok b st st'' hco
    | error q =>
      obtain ⟨e, st''⟩ := q
      rw [hco] at h
      by_cases hr : e.isClientError = true ∧ terminalHttpCode e = false
      · simp only [hr, if_true, ite_true] at h
        exact ih st'' st' h
      · simp [hr] at h

/-- C1 is refuted as universally stated: line 108
(`stats.input_messages = body["messages"]`) runs before the `try`, so a
request body without a `messages` key makes `call` raise `KeyError` and
return no record at all. -/
theorem claim_C1_counterexample :
    OAIRequester.call tmId rndZero tokZero false 0 ⟨none⟩ []
      = .error (.keyError "messages") := rfl

/-- C1 (amended): for every request body that carries a `messages` field,
`OAIRequester.call` returns a `RequestStats` record and never raises; any
exception from the underlying attempt is captured as a string description
in `last_exception` (and `last_exception` stays `None` on success); and the
returned record always has `response_end_time` set — in particular on
every failed call (terminal non-200 status or raised exception) the record
is bounded in time. -/
theorem claim_C1_call_contract (tm rand : Nat → ℚ) (tok : List Message → Nat × Nat)
    (b : Bool) (fuel : Nat) (msgs : List Message) (wire : List PostResult) :
    ∃ stats : RequestStats,
      OAIRequester.call tm rand tok b fuel ⟨some msgs⟩ wire = .ok stats ∧
      stats.response_end_time.isSome ∧
      (∀ e st', backoffRetry tm rand tok b fuel ⟨RequestStats.init, wire, 0, msgs⟩
          = .error (e, st') → stats.last_exception = some e.describe) ∧
      (∀ st', backoffRetry tm rand tok b fuel ⟨RequestStats.init, wire, 0, msgs⟩
          = .ok st' → stats.last_exception = none) := by
  refine ⟨callCaught tm rand tok b fuel msgs wire, rfl, ?_, ?_, ?_⟩
  · rw [callCaught]
    cases hb : backoffRetry tm rand tok b fuel ⟨RequestStats.init, wire, 0, msgs⟩ with
    | ok st => exact backoffRetry_ok_end tm rand tok b fuel _ st hb
    | error q =>
      obtain ⟨e, st⟩ := q
      by_cases hend : st.stats.response_end_time = none
      · simp [hend]
      · simp only [hend, if_false, ite_false]
        simpa [Option.isSome] using Option.ne_none_iff_isSome.mp hend
  · intro e st' he
    rw [callCaught, he]
    by_cases hend : st'.stats.response_end_time = none
    · simp [hend]
    · simp [hend]
  · intro st' hok
    rw [callCaught, hok]
    have hl := backoffRetry_lastexc tm rand tok b fuel ⟨RequestStats.init, wire, 0, msgs⟩
    rw [hok] at hl
    simpa [resCall, RequestStats.init] using hl

/-- Witness for C1 at a concrete input: a dead wire with no retry budget. -/
theorem claim_C1_witness :
    ∃ stats : RequestStats,
      OAIRequester.call tmId rndZero tokZero false 0 ⟨some []⟩ [] = .ok stats ∧
      stats.response_end_time.isSome ∧
      (∀ e st', backoffRetry tmId rndZero tokZero false 0 ⟨RequestStats.init, [], 0, []⟩
          = .error (e, st') → stats.last_exception = some e.describe) ∧
      (∀ st', backoffRetry tmId rndZero tokZero false 0 ⟨RequestStats.init, [], 0, []⟩
          = .ok st' → stats.last_exception = none) :=
  claim_C1_call_contract tmId rndZero tokZero false 0 [] []

theorem whileProceed_true (tm : Nat → ℚ) (stats : RequestStats) (k : Nat)
    (hcalls : stats.calls ≠ 0)
    (ht : tm k - stats.request_start_time.getD 0 < 60) :
    whileProceed tm stats k = (true, k + 1) := by
  simp [whileProceed, hcalls, ht]

theorem postLoop_step_resp (tm : Nat → ℚ) (b : Bool) (r : HttpResponse)
    (rest : List PostResult) (stats : RequestStats) (k : Nat)
    (hcalls : stats.calls ≠ 0)
    (ht : tm k - stats.request_start_time.getD 0 < 60)
    (h429 : r.status ≠ 429) :
    postLoop tm b (.response r :: rest) stats k
      = .ok (r, readUtilization r
          { stats with
            calls := stats.calls + 1
            response_status_code := r.status }, k + 1, rest) := by
  rw [postLoop, whileProceed_true tm stats k hcalls ht]
  simp [h429]

theorem postLoop_step_429 (tm : Nat → ℚ) (r : HttpResponse)
    (rest : List PostResult) (stats : RequestStats) (k : Nat) (ms : ℚ)
    (hcalls : stats.calls ≠ 0)
    (ht : tm k - stats.request_start_time.getD 0 < 60)
    (h429 : r.status = 429) (hra : r.retryAfterMs = some (.val ms)) :
    postLoop tm true (.response r :: rest) stats k
      = postLoop tm true rest (readUtilization r
          { stats with
            calls := stats.calls + 1
            response_status_code := r.status }) (k + 1) := by
  rw [postLoop, whileProceed_true tm stats k hcalls ht]
  simp [h429, hra]

theorem backoffRetry_of_callOnce_ok (tm rand : Nat → ℚ)
    (tok : List Message → Nat × Nat) (b : Bool) (st st' : CallState)
    (h : callOnce tm rand tok b st = .ok st') (fuel : Nat) :
    backoffRetry tm rand tok b fuel st = .ok st' := by
  cases fuel <;> rw [backoffRetry, h]

theorem callOnce_eq_of_postLoop_ok (tm rand : Nat → ℚ)
    (tok : List Message → Nat × Nat) (b : Bool) (st : CallState)
    (r : HttpResponse) (s : RequestStats) (k2 : Nat) (w : List PostResult)
    (h : postLoop tm b st.wire (callPrepare tm rand tok st).1
          (callPrepare tm rand tok st).2.1 = .ok (r, s, k2, w)) :
    callOnce tm rand tok b st
      = callFinish tm b (callPrepare tm rand tok st).2.2 r s k2 w := by
  rw [callOnce, h]

theorem callFinish_200 (tm : Nat → ℚ) (b : Bool) (msgs : List Message)
    (r : HttpResponse) (stats : RequestStats) (k : Nat) (wire : List PostResult)
    (h200 : r.status = 200) :
    callFinish tm b msgs r stats k wire
      = .ok ⟨(handleResponse tm r.lines stats k).1, wire,
             (handleResponse tm r.lines stats k).2, msgs⟩ := by
  rw [callFinish]
  have hb' : ¬ (b = true ∧ 400 ≤ r.status) := by
    rintro ⟨_, h400⟩
    rw [h200] at h400
    omega
  simp [h200, hb']

/-- C2 is contradicted by the code: `_call` pre-increments `stats.calls` at
its top (line 132) in addition to the per-POST increment inside the retry
loop (line 182) — the loop guard `stats.calls == 0` at line 181 is dead
code as a result — so `calls` exceeds the number of HTTP POST attempts by
one per `_call` invocation.  A call answered 200 on its single POST reports
`calls = 2` (one-element wire fully consumed: one POST), and the spec's
throttle scenario — 429, 429 with `retry-after-ms` honoured, then 200 —
makes three POSTs but reports `calls = 4`, not 3.  The clock hypotheses
keep the 60-second retry budget open, as in any real run. -/
theorem claim_C2_calls_overcount (tm rand : Nat → ℚ)
    (tok : List Message → Nat × Nat) (fuel : Nat)
    (h1 : tm 4 - tm 3 < 60) (h2 : tm 5 - tm 3 < 60) (h3 : tm 6 - tm 3 < 60) :
    (∃ st : CallState,
       backoffRetry tm rand tok false fuel
           ⟨RequestStats.init, [.response ok200], 0, []⟩ = .ok st
         ∧ st.stats.calls = 2 ∧ st.wire = []) ∧
    (∃ st : CallState,
       backoffRetry tm rand tok true fuel
           ⟨RequestStats.init,
            [.response throttled429, .response throttled429, .response ok200],
            0, []⟩ = .ok st
         ∧ st.stats.calls = 4 ∧ st.wire = []) := by
  constructor
  · -- one POST answered 200: calls = 2
    have hstep : postLoop tm false [.response ok200]
        { RequestStats.init with calls := 1, request_start_time := some (tm 3) } 4
        = .ok (ok200,
            { RequestStats.init with
              calls := 2
              request_start_time := some (tm 3)
              response_status_code := 200 }, 5, []) := by
      rw [postLoop_step_resp tm false ok200 []
        { RequestStats.init with calls := 1, request_start_time := some (tm 3) } 4
        (by simp) (by simpa using h1) (by simp [ok200])]
      rfl
    have hpost : postLoop tm false
        ((⟨RequestStats.init, [.response ok200], 0, []⟩ : CallState)).wire
        (callPrepare tm rand tok ⟨RequestStats.init, [.response ok200], 0, []⟩).1
        (callPrepare tm rand tok ⟨RequestStats.init, [.response ok200], 0, []⟩).2.1
        = .ok (ok200,
            { RequestStats.init with
              calls := 2
              request_start_time := some (tm 3)
              response_status_code := 200 }, 5, []) := hstep
    have honce := callOnce_eq_of_postLoop_ok tm rand tok false
      ⟨RequestStats.init, [.response ok200], 0, []⟩ ok200 _ 5 [] hpost
    rw [callFinish_200 tm false _ ok200 _ 5 [] rfl] at honce
    refine ⟨_, backoffRetry_of_callOnce_ok tm rand tok false _ _ honce fuel, ?_, rfl⟩
    show (handleResponse tm ok200.lines _ 5).1.calls = 2
    rw [handleResponse_calls]
  · -- 429, 429 (retry-after honoured), 200: three POSTs, calls = 4
    have hstep1 : postLoop tm true
        [.response throttled429, .response throttled429, .response ok200]
        { RequestStats.init with calls := 1, request_start_time := some (tm 3) } 4
        = postLoop tm true [.response throttled429, .response ok200]
            { RequestStats.init with
              calls := 2
              request_start_time := some (tm 3)
              response_status_code := 429 } 5 := by
      rw [postLoop_step_429 tm throttled429 _
        { RequestStats.init with calls := 1, request_start_time := some (tm 3) } 4 200
        (by simp) (by simpa using h1) rfl rfl]
      rfl
    have hstep2 : postLoop tm true [.response throttled429, .response ok200]
        { RequestStats.init with
          calls := 2
          request_start_time := some (tm 3)
          response_status_code := 429 } 5
        = postLoop tm true [.response ok200]
            { RequestStats.init with
              calls := 3
              request_start_time := some (tm 3)
              response_status_code := 429 } 6 := by
      rw [postLoop_step_429 tm throttled429 _
        { RequestStats.init with
          calls := 2
          request_start_time := some (tm 3)
          response_status_code := 429 } 5 200
        (by simp) (by simpa using h2) rfl rfl]
      rfl
    have hstep3 : postLoop tm true [.response ok200]
        { RequestStats.init with
          calls := 3
          request_start_time := some (tm 3)
          response_status_code := 429 } 6
        = .ok (ok200,
            { RequestStats.init with
              calls := 4
              request_start_time := some (tm 3)
              response_status_code := 200 }, 7, []) := by
      rw [postLoop_step_resp tm true ok200 []
        { RequestStats.init with
          calls := 3
          request_start_time := some (tm 3)
          response_status_code := 429 } 6
        (by simp) (by simpa using h3) (by simp [ok200])]
      rfl
    have hpost : postLoop tm true
        ((⟨RequestStats.init,
           [.response throttled429, .response throttled429, .response ok200],
           0, []⟩ : CallState)).wire
        (callPrepare tm rand tok
          ⟨RequestStats.init,
           [.response throttled429, .response throttled429, .response ok200],
           0, []⟩).1
        (callPrepare tm rand tok
          ⟨RequestStats.init,
           [.response throttled429, .response throttled429, .response ok200],
           0, []⟩).2.1
        = .ok (ok200,
            { RequestStats.init with
              calls := 4
              request_start_time := some (tm 3)
              response_status_code := 200 }, 7, []) :=
      (hstep1.trans hstep2).trans hstep3
    have honce := callOnce_eq_of_postLoop_ok tm rand tok true
      ⟨RequestStats.init,
       [.response throttled429, .response throttled429, .response ok200],
       0, []⟩ ok200 _ 7 [] hpost
    rw [callFinish_200 tm true _ ok200 _ 7 [] rfl] at honce
    refine ⟨_, backoffRetry_of_callOnce_ok tm rand tok true _ _ honce fuel, ?_, rfl⟩
    show (handleResponse tm ok200.lines _ 7).1.calls = 4
    rw [handleResponse_calls]

/-- Witness for C2 with the identity clock: both scenarios realized. -/
theorem claim_C2_witness :
    ((tmId 4 - tmId 3 < 60) ∧ (tmId 5 - tmId 3 < 60) ∧ (tmId 6 - tmId 3 < 60)) ∧
    ((∃ st : CallState,
        backoffRetry tmId rndZero tokZero false 0
            ⟨RequestStats.init, [.response ok200], 0, []⟩ = .ok st
          ∧ st.stats.calls = 2 ∧ st.wire = []) ∧
     (∃ st : CallState,
        backoffRetry tmId rndZero tokZero true 0
            ⟨RequestStats.init,
             [.response throttled429, .response throttled429, .response ok200],
             0, []⟩ = .ok st
          ∧ st.stats.calls = 4 ∧ st.wire = [])) :=
  ⟨⟨by norm_num [tmId], by norm_num [tmId], by norm_num [tmId]⟩,
   claim_C2_calls_overcount tmId rndZero tokZero 0
     (by norm_num [tmId]) (by norm_num [tmId]) (by norm_num [tmId])⟩
